import Mathlib

/-!
# lucia-chatgpt: conversation history and completion normalisation

A shallow embedding of `bot/bot.go`: the per-user dialogue history kept in the
cache, the request built by `createCompletion`, the normalisation of the
upstream response, and the four handlers registered by `NewAIBot`.

Modelling conventions.

* Go strings are Lean `String`s; `len(s)` is the byte length `s.utf8ByteSize`.
* The `float64` generation parameters are the rationals their source literals denote.
* The cache maps a user id to the history whose `encoding/json` image the
  handler stored: `json.Marshal` followed by `json.Unmarshal` gives back the
  same `[]Message`, so the cached bytes are represented by the history itself.
* The upstream service, the wall clock and the Telegram transport are inputs of
  the handlers: what the HTTP round trip produced, the rendering of the elapsed
  seconds, and the error (if any) of the final send.
-/

namespace Lucia

/-! ## Data model -/

/-- Message: one dialogue turn (`type Message`). -/
structure Message where
  Role : String
  Content : String
deriving DecidableEq, Repr

/-- CreateCompletionRequest: the legacy single-prompt request body. -/
structure CreateCompletionRequest where
  Model : String
  Prompt : String
  Temperature : ℚ
  MaxTokens : Int
  TopP : Int
  FrequencyPenalty : ℚ
  PresencePenalty : ℚ
  Stop : List String
deriving DecidableEq

/-- CreateCompletionGPTRequest: the chat request body. -/
structure CreateCompletionGPTRequest where
  Model : String
  Messages : List Message
  Temperature : ℚ
  MaxTokens : Int
  TopP : Int
  FrequencyPenalty : ℚ
  PresencePenalty : ℚ
  Stop : List String
deriving DecidableEq

/-- ChoiceMessage: the anonymous `message` struct of a choice. -/
structure ChoiceMessage where
  Role : String
  Content : String
deriving DecidableEq, Repr

/-- Choice: one element of `CreateCompletionResponse.Choices`
(`logprobs`, of type `any`, is kept as its raw text when present). -/
structure Choice where
  Text : String
  Index : Int
  Logprobs : Option String
  FinishReason : String
  Message : ChoiceMessage
deriving DecidableEq, Repr

/-- Usage: the anonymous `usage` struct of a response. -/
structure Usage where
  PromptTokens : Int
  CompletionTokens : Int
  TotalTokens : Int
deriving DecidableEq, Repr

/-- CreateCompletionResponse: the shape the response body is unmarshalled into. -/
structure CreateCompletionResponse where
  ID : String
  Object : String
  Created : Int
  Model : String
  Choices : List Choice
  Usage : Usage
deriving DecidableEq, Repr

/-- AIBot: the fields of the bot the handlers read; the Telegram bot, the HTTP
client and the cache are passed to the handlers explicitly. -/
structure AIBot where
  apiKey : String
  model : String
deriving DecidableEq, Repr

/-- NewAIBot: the configuration `NewAIBot` gives the bot it constructs. -/
def NewAIBot (_teleApiKey openApiKey : String) : AIBot :=
  { model := "gpt-3.5-turbo", apiKey := openApiKey }

/-- Payload: the value handed to `json.Marshal`, one of the two request shapes. -/
inductive Payload where
  | chat (r : CreateCompletionGPTRequest)
  | legacy (r : CreateCompletionRequest)
deriving DecidableEq

/-- Upstream: what the HTTP round trip of `createCompletion` produced.
`transportError` is an error of `client.Do` or `io.ReadAll`, `malformed` an
error of `json.Unmarshal`, `parsed` the unmarshalled response. -/
inductive Upstream where
  | transportError (e : String)
  | malformed (e : String)
  | parsed (data : CreateCompletionResponse)
deriving DecidableEq

/-- Go `len` of a string: its length in bytes. -/
def goLen (s : String) : Nat := s.utf8ByteSize

/-! ## The cache -/

/-- Cache: the `bigcache` instance, as the map from user id to stored history. -/
abbrev Cache := String → Option (List Message)

/-- The cache `bigcache.New` returns: no entries. -/
def Cache.empty : Cache := fun _ => none

/-- Cache read `cache.Get(key)`: `none` stands for `ErrEntryNotFound`. -/
def Cache.Get (c : Cache) (key : String) : Option (List Message) := c key

/-- Cache write `cache.Set(key, value)`: overwrites the entry of `key`. -/
def Cache.Set (c : Cache) (key : String) (value : List Message) : Cache :=
  fun k => if k = key then some value else c k

/-- Removal of an entry by the cache itself (idle expiry or eviction). -/
def Cache.evict (c : Cache) (key : String) : Cache :=
  fun k => if k = key then none else c k

/-! ## createCompletion -/

/-- The request body of `createCompletion`: the chat shape when the
configured model is `gpt-3.5-turbo`, the legacy shape otherwise. -/
def buildPayload (b : AIBot) (query : String) (oldMessages : List Message) : Payload :=
  if b.model = "gpt-3.5-turbo" then
    let finalMessage := oldMessages
    let finalMessage := finalMessage ++ [{ Role := "user", Content := query }]
    .chat {
      Model := b.model
      Messages := finalMessage
      Temperature := 7 / 10
      MaxTokens := 1000
      TopP := 1
      FrequencyPenalty := 0
      PresencePenalty := 0
      Stop := [" Human:", " Ai:"] }
  else
    .legacy {
      Model := "text-davinci-003"
      Prompt := query
      Temperature := 7 / 10
      MaxTokens := 1000
      TopP := 1
      FrequencyPenalty := 0
      PresencePenalty := 0
      Stop := [" Human:", " Ai:"] }

/-- The loop of `createCompletion` over `data.Choices`: each choice appends
its `Text` when that is non-empty and its `Message.Content` otherwise. -/
def collectChoiceTexts (choices : List Choice) : List String :=
  if choices.length > 0 then
    choices.foldl
      (fun choiceTexts c =>
        if c.Text ≠ "" then choiceTexts ++ [c.Text]
        else choiceTexts ++ [c.Message.Content])
      []
  else []

/-- The tail of `createCompletion`, from the unmarshalled response on. -/
def normalize (data : CreateCompletionResponse) : String :=
  let choiceTexts := collectChoiceTexts data.Choices
  if choiceTexts.length > 0 then String.intercalate "\n\n" choiceTexts
  else "Something went wrong, please retry later"

/-- Function `createCompletion`: builds the payload, posts it (the round trip
`send`), and normalises the response. The first component is the payload that
was posted, the second the pair `(string, error)` the function returns.
The error returns after `json.Marshal` and `http.NewRequest` have no
counterpart: marshalling these request structs and building a POST request for
the constant URL do not fail. -/
def createCompletion (b : AIBot) (query : String) (oldMessages : List Message)
    (send : Payload → Upstream) : Payload × Except String String :=
  let payload := buildPayload b query oldMessages
  match send payload with
  | .transportError e => (payload, .error e)
  | .malformed e => (payload, .error e)
  | .parsed data => (payload, .ok (normalize data))

/-! ## Handlers -/

/-- Outcome of a handler: the cache it leaves, the completion requests it
issued, the texts it sent to the user, and the error it returns. -/
structure Outcome where
  cache : Cache
  requests : List Payload
  sent : List String
  err : Option String

/-- The greeting sent by `/start` and `/clear`. -/
def greeting : String :=
  "Hi! I'm <b>ChatGPT</b> bot implemented with GPT-3.5 OpenAI API 🤖\n\n"

/-- Handler of `/start`. -/
def onStart (cache : Cache) (sendErr : Option String) : Outcome :=
  { cache := cache, requests := [], sent := [greeting], err := sendErr }

/-- The text sent by `/help`. -/
def helpStr : String :=
  "Commands:\n\t\t⚡️ /start - Register chat\n\t\t⚡️ /clear - Open new conversation\n\t\t⚡️ /ai - Suggest more other bot ai\n\t\t⚡️ /help - Show help\n\t\t"

/-- Handler of `/help`. -/
def onHelp (cache : Cache) (sendErr : Option String) : Outcome :=
  { cache := cache, requests := [], sent := [helpStr], err := sendErr }

/-- Handler of `/clear`: reads the entry of the sender, discards what it read,
and sends the greeting. -/
def onClear (cache : Cache) (userID : String) (sendErr : Option String) : Outcome :=
  let _ := cache.Get userID
  { cache := cache, requests := [], sent := [greeting], err := sendErr }

/-- The reply text after the completion call: the generated text, or the
busy message when `createCompletion` returned an error. -/
def replyText (r : Except String String) : String :=
  match r with
  | .ok respText => respText
  | .error _ => "OPS ! Bot busy, please try again"

/-- The window applied before the write-back: `if len(msgs) > 10 { msgs = msgs[2:] }`. -/
def truncate (msgs : List Message) : List Message :=
  if msgs.length > 10 then msgs.drop 2 else msgs

/-- Handler of `tele.OnText` for sender `userID` and message `text`.
`send` is the upstream round trip, `elapsed` the `%.2f` rendering of the
seconds since the handler started, `sendErr` the error of the final send.
The result of `c.Send(tele.Typing)` is discarded by the source and is not
recorded; `requests` lists the one payload `createCompletion` posts. -/
def onText (b : AIBot) (cache : Cache) (userID text : String)
    (send : Payload → Upstream) (elapsed : String) (sendErr : Option String) : Outcome :=
  if goLen text == 0 then
    { cache := cache, requests := [],
      sent := ["Can I help you, give me some question !"], err := sendErr }
  else
    let prior : List Message :=
      match cache.Get userID with
      | some cacheMsgs => cacheMsgs
      | none => []
    let run := createCompletion b text prior send
    let respText := replyText run.2
    let msgs := prior ++ [{ Role := "user", Content := text }]
    let msgs := msgs ++ [{ Role := "assistant", Content := respText }]
    let msgs := truncate msgs
    let cache := cache.Set userID msgs
    let respText := respText ++ ("\n (" ++ elapsed ++ "s) ")
    { cache := cache, requests := [run.1], sent := [respText], err := sendErr }

/-! ## Reachable cache states -/

/-- Reachable: the cache states the bot can be in. It starts empty; each
handled update runs one of the four handlers; the cache may drop an entry on
its own (idle expiry, eviction). -/
inductive Reachable (b : AIBot) : Cache → Prop where
  | init : Reachable b Cache.empty
  | text (s : Cache) (userID text : String) (send : Payload → Upstream)
      (elapsed : String) (sendErr : Option String) :
      Reachable b s → Reachable b (onText b s userID text send elapsed sendErr).cache
  | clear (s : Cache) (userID : String) (sendErr : Option String) :
      Reachable b s → Reachable b (onClear s userID sendErr).cache
  | start (s : Cache) (sendErr : Option String) :
      Reachable b s → Reachable b (onStart s sendErr).cache
  | help (s : Cache) (sendErr : Option String) :
      Reachable b s → Reachable b (onHelp s sendErr).cache
  | evict (s : Cache) (userID : String) :
      Reachable b s → Reachable b (s.evict userID)

/-! ## Specification-side definitions -/

/-- The history a handler starts from: the entry of the user, or the empty
history when there is none. -/
def priorHistory (cache : Cache) (userID : String) : List Message :=
  (cache.Get userID).getD []

/-- The role a turn at position `i` has in an alternating history that starts
with the user. -/
def expectedRole (i : Nat) : String :=
  if i % 2 = 0 then "user" else "assistant"

/-- Alternation of roles: user, assistant, user, assistant, ... from the front. -/
def Alternates (h : List Message) : Prop :=
  ∀ (i : Nat) (hi : i < h.length), (h.get ⟨i, hi⟩).Role = expectedRole i

instance (h : List Message) : Decidable (Alternates h) := by
  unfold Alternates; infer_instance

/-- The truncation loop of the specification, with `fuel` iterations allowed:
while the history is longer than 10, drop the two oldest turns. -/
def truncateLoop : Nat → List Message → List Message
  | 0, h => h
  | fuel + 1, h => if h.length > 10 then truncateLoop fuel (h.drop 2) else h

/-- The reference turn update of the specification: append the user turn and
the assistant turn, then run the truncation loop (one iteration per turn is
more than the loop can use). -/
def updateHistoryRef (prior : List Message) (query reply : String) : List Message :=
  let newHistory := prior ++ [{ Role := "user", Content := query },
    { Role := "assistant", Content := reply }]
  truncateLoop newHistory.length newHistory

/-- The candidate text of a choice in the words of the specification: `text`
if non-empty, else `message.content`. -/
def candidateText (c : Choice) : String :=
  if c.Text ≠ "" then c.Text else c.Message.Content

/-- The reply text of a round in the words of the specification: the joined
candidates, the fallback for an empty choices list, the busy message on an
error. -/
def roundReply : Upstream → String
  | .parsed data =>
      if data.Choices = [] then "Something went wrong, please retry later"
      else String.intercalate "\n\n" (data.Choices.map candidateText)
  | .transportError _ => "OPS ! Bot busy, please try again"
  | .malformed _ => "OPS ! Bot busy, please try again"

/-- An upstream that answers every request with the given choices. -/
def answering (choices : List Choice) : Payload → Upstream :=
  fun _ => .parsed {
    ID := ""
    Object := ""
    Created := 0
    Model := ""
    Choices := choices
    Usage := { PromptTokens := 0, CompletionTokens := 0, TotalTokens := 0 } }

/-- A choice carrying only a legacy `text`. -/
def textChoice (t : String) : Choice :=
  { Text := t, Index := 0, Logprobs := none, FinishReason := "",
    Message := { Role := "", Content := "" } }

/-- A choice carrying only a chat `message.content`. -/
def chatChoice (t : String) : Choice :=
  { Text := "", Index := 0, Logprobs := none, FinishReason := "",
    Message := { Role := "assistant", Content := t } }

/-- A well-shaped history of `n` turns: roles alternate from the user, the
turn at position `i` has content `"m"`. -/
def turns : Nat → List Message
  | 0 => []
  | n + 1 => turns n ++ [{ Role := expectedRole n, Content := "m" }]

/-- An upstream whose round trip fails with the given transport error. -/
def failing (e : String) : Payload → Upstream :=
  fun _ => .transportError e

/-- An upstream whose body cannot be unmarshalled. -/
def garbled (e : String) : Payload → Upstream :=
  fun _ => .malformed e

/-! ## Auxiliary lemmas -/

theorem goLen_eq_zero_iff (s : String) : goLen s = 0 ↔ s = "" := by
  rcases s with ⟨cs⟩
  cases cs with
  | nil => simp [goLen, String.utf8ByteSize, String.utf8ByteSize.go]
  | cons c cs =>
    have hc := Char.utf8Size_pos c
    have hne : (⟨c :: cs⟩ : String) ≠ "" := by
      intro h
      have := congrArg String.data h
      simp at this
    simp only [goLen, String.utf8ByteSize, String.utf8ByteSize.go, hne, iff_false]
    omega

theorem onText_empty (b : AIBot) (cache : Cache) (userID : String)
    (send : Payload → Upstream) (elapsed : String) (sendErr : Option String) :
    onText b cache userID "" send elapsed sendErr =
      { cache := cache, requests := [],
        sent := ["Can I help you, give me some question !"], err := sendErr } := by
  rfl

theorem onText_nonempty (b : AIBot) (cache : Cache) (userID text : String)
    (send : Payload → Upstream) (elapsed : String) (sendErr : Option String)
    (ht : text ≠ "") :
    onText b cache userID text send elapsed sendErr =
      { cache := cache.Set userID (truncate (priorHistory cache userID ++
            [{ Role := "user", Content := text },
             { Role := "assistant",
               Content := replyText (createCompletion b text (priorHistory cache userID) send).2 }]))
        requests := [(createCompletion b text (priorHistory cache userID) send).1]
        sent := [replyText (createCompletion b text (priorHistory cache userID) send).2 ++
            ("\n (" ++ elapsed ++ "s) ")]
        err := sendErr } := by
  have hlen : goLen text ≠ 0 := fun h => ht ((goLen_eq_zero_iff text).1 h)
  have hprior : (match cache.Get userID with
      | some cacheMsgs => cacheMsgs
      | none => []) = priorHistory cache userID := by
    unfold priorHistory
    cases cache.Get userID <;> rfl
  simp only [onText, beq_iff_eq, hlen, if_false, hprior, List.append_assoc, List.cons_append,
    List.nil_append]

theorem truncate_length_le (msgs : List Message) (h : msgs.length ≤ 12) :
    (truncate msgs).length ≤ 10 := by
  unfold truncate
  split
  · simp only [List.length_drop]; omega
  · omega

theorem truncateLoop_length_le (fuel : Nat) (h : List Message)
    (hf : h.length ≤ 10 + 2 * fuel) : (truncateLoop fuel h).length ≤ 10 := by
  induction fuel generalizing h with
  | zero => simpa [truncateLoop] using hf
  | succ n ih =>
    unfold truncateLoop
    split
    · apply ih
      simp only [List.length_drop]
      omega
    · omega

theorem updateHistoryRef_length_le (prior : List Message) (query reply : String) :
    (updateHistoryRef prior query reply).length ≤ 10 := by
  unfold updateHistoryRef
  apply truncateLoop_length_le
  omega

theorem truncateLoop_eq_truncate (fuel : Nat) (h : List Message)
    (hf : 0 < fuel) (hl : h.length ≤ 12) : truncateLoop fuel h = truncate h := by
  cases fuel with
  | zero => omega
  | succ n =>
    unfold truncateLoop truncate
    split
    · cases n with
      | zero => rfl
      | succ m =>
        unfold truncateLoop
        have : ¬ (List.drop 2 h).length > 10 := by
          simp only [List.length_drop]; omega
        simp only [this, if_false]
    · rfl

theorem expectedRole_add_two (i : Nat) : expectedRole (i + 2) = expectedRole i := by
  unfold expectedRole
  have : (i + 2) % 2 = i % 2 := by omega
  rw [this]

theorem alternates_nil : Alternates [] := by
  intro i hi
  simp at hi

theorem alternates_drop_two (h : List Message) (ha : Alternates h) :
    Alternates (h.drop 2) := by
  intro i hi
  have hi2 : 2 + i < h.length := by
    simp only [List.length_drop] at hi; omega
  have := ha (2 + i) hi2
  simp only [List.get_eq_getElem, List.getElem_drop] at this ⊢
  rw [this, Nat.add_comm, expectedRole_add_two]

theorem alternates_append_pair (h : List Message) (q r : String)
    (he : h.length % 2 = 0) (ha : Alternates h) :
    Alternates (h ++ [{ Role := "user", Content := q }, { Role := "assistant", Content := r }]) := by
  intro i hi
  simp only [List.length_append, List.length_cons, List.length_nil] at hi
  simp only [List.get_eq_getElem]
  by_cases h1 : i < h.length
  · rw [List.getElem_append_left h1]
    exact ha i h1
  · rw [List.getElem_append_right (by omega)]
    have hcases : i - h.length = 0 ∨ i - h.length = 1 := by omega
    rcases hcases with h0 | h0
    · simp only [h0, List.getElem_cons_zero]
      unfold expectedRole
      have : i % 2 = 0 := by omega
      simp [this]
    · simp only [h0, List.getElem_cons_succ, List.getElem_cons_zero]
      unfold expectedRole
      have : ¬ i % 2 = 0 := by omega
      simp [this]

/-- The shape every stored history has: even length, at most ten turns, roles
alternating from the user. -/
theorem truncate_append_pair_wellFormed (h : List Message) (q r : String)
    (he : h.length % 2 = 0) (hl : h.length ≤ 10) (ha : Alternates h) :
    (truncate (h ++ [{ Role := "user", Content := q },
        { Role := "assistant", Content := r }])).length % 2 = 0 ∧
    (truncate (h ++ [{ Role := "user", Content := q },
        { Role := "assistant", Content := r }])).length ≤ 10 ∧
    Alternates (truncate (h ++ [{ Role := "user", Content := q },
        { Role := "assistant", Content := r }])) := by
  have hap := alternates_append_pair h q r he ha
  refine ⟨?_, truncate_length_le _ (by simp; omega), ?_⟩
  · unfold truncate
    split
    · simp only [List.length_drop, List.length_append, List.length_cons, List.length_nil]
      omega
    · simp only [List.length_append, List.length_cons, List.length_nil]
      omega
  · unfold truncate
    split
    · exact alternates_drop_two _ hap
    · exact hap

theorem reachable_wellFormed (b : AIBot) (s : Cache) (hs : Reachable b s) :
    ∀ (u : String) (h : List Message), s u = some h →
      h.length % 2 = 0 ∧ h.length ≤ 10 ∧ Alternates h := by
  induction hs with
  | init => intro u h hu; simp [Cache.empty] at hu
  | text s userID text send elapsed sendErr _ ih =>
    intro u h hu
    by_cases ht : text = ""
    · subst ht
      rw [onText_empty] at hu
      exact ih u h hu
    · rw [onText_nonempty b s userID text send elapsed sendErr ht] at hu
      simp only [Cache.Set] at hu
      by_cases hk : u = userID
      · simp only [hk, if_true, Option.some.injEq] at hu
        subst hu
        have hp : (priorHistory s userID).length % 2 = 0 ∧
            (priorHistory s userID).length ≤ 10 ∧ Alternates (priorHistory s userID) := by
          unfold priorHistory Cache.Get
          cases hsu : s userID with
          | none => exact ⟨rfl, by simp, alternates_nil⟩
          | some h0 => exact ih userID h0 hsu
        exact truncate_append_pair_wellFormed _ _ _ hp.1 hp.2.1 hp.2.2
      · simp only [hk, if_false] at hu
        exact ih u h hu
  | clear s userID sendErr _ ih => exact ih
  | start s sendErr _ ih => exact ih
  | help s sendErr _ ih => exact ih
  | evict s userID _ ih =>
    intro u h hu
    simp only [Cache.evict] at hu
    by_cases hk : u = userID
    · simp [hk] at hu
    · simp only [hk, if_false] at hu
      exact ih u h hu

theorem foldl_choiceTexts (choices : List Choice) (acc : List String) :
    choices.foldl
      (fun choiceTexts c =>
        if c.Text ≠ "" then choiceTexts ++ [c.Text]
        else choiceTexts ++ [c.Message.Content]) acc
      = acc ++ choices.map candidateText := by
  induction choices generalizing acc with
  | nil => simp
  | cons c cs ih =>
    simp only [List.foldl_cons, List.map_cons, ih]
    unfold candidateText
    split <;> simp

theorem collectChoiceTexts_eq_map (choices : List Choice) :
    collectChoiceTexts choices = choices.map candidateText := by
  unfold collectChoiceTexts
  split
  · rw [foldl_choiceTexts]; simp
  · have : choices = [] := by
      cases choices with
      | nil => rfl
      | cons c cs => simp at *
    subst this; rfl

theorem normalize_eq (data : CreateCompletionResponse) :
    normalize data =
      if data.Choices = [] then "Something went wrong, please retry later"
      else String.intercalate "\n\n" (data.Choices.map candidateText) := by
  unfold normalize
  simp only [collectChoiceTexts_eq_map, List.length_map]
  cases hc : data.Choices with
  | nil => simp
  | cons c cs => simp

theorem replyText_eq_roundReply (b : AIBot) (query : String) (oldMessages : List Message)
    (send : Payload → Upstream) :
    replyText (createCompletion b query oldMessages send).2 =
      roundReply (send (buildPayload b query oldMessages)) := by
  cases hsend : send (buildPayload b query oldMessages) with
  | transportError e => simp only [createCompletion, hsend, replyText, roundReply]
  | malformed e => simp only [createCompletion, hsend, replyText, roundReply]
  | parsed data => simp only [createCompletion, hsend, replyText, roundReply, normalize_eq]

theorem createCompletion_posts (b : AIBot) (query : String) (oldMessages : List Message)
    (send : Payload → Upstream) :
    (createCompletion b query oldMessages send).1 = buildPayload b query oldMessages := by
  cases hsend : send (buildPayload b query oldMessages) <;>
    simp only [createCompletion, hsend]

/-! ## The claims -/

/-- C1: for every prior history of at most ten turns (any contents, any
parity), every non-empty user text and every completion outcome, the history the
`OnText` handler writes back for the sender has at most ten turns. -/
theorem onText_history_length_le (b : AIBot) (cache : Cache) (userID text : String)
    (send : Payload → Upstream) (elapsed : String) (sendErr : Option String)
    (hlen : (priorHistory cache userID).length ≤ 10) (ht : text ≠ "") :
    ∃ h, (onText b cache userID text send elapsed sendErr).cache.Get userID = some h ∧
      h.length ≤ 10 := by
  rw [onText_nonempty b cache userID text send elapsed sendErr ht]
  refine ⟨truncate (priorHistory cache userID ++
      [{ Role := "user", Content := text },
       { Role := "assistant",
         Content := replyText (createCompletion b text (priorHistory cache userID) send).2 }]),
    by simp [Cache.Get, Cache.Set], ?_⟩
  apply truncate_length_le
  simp only [List.length_append, List.length_cons, List.length_nil]
  omega

theorem onText_history_length_le_witness :
    (priorHistory (Cache.empty.Set "7" (turns 9)) "7").length ≤ 10 ∧ "hi" ≠ "" ∧
    ∃ h, (onText (NewAIBot "" "k") (Cache.empty.Set "7" (turns 9)) "7" "hi"
        (failing "timeout") "0.10" none).cache.Get "7" = some h ∧ h.length ≤ 10 :=
  ⟨by decide, by decide,
    onText_history_length_le (NewAIBot "" "k") (Cache.empty.Set "7" (turns 9)) "7" "hi"
      (failing "timeout") "0.10" none (by decide) (by decide)⟩

/-- C2, as stated, fails: from a stored history of twelve turns the handler
stores twelve turns (one pair dropped), the reference loop of the specification
leaves ten. -/
theorem onText_ne_updateHistoryRef :
    (onText (NewAIBot "" "k") (Cache.empty.Set "7" (turns 12)) "7" "hi"
        (answering [chatChoice "yo"]) "0.10" none).cache.Get "7"
      = some (turns 12 ++ [Message.mk "user" "hi", Message.mk "assistant" "yo"]).tail.tail ∧
    updateHistoryRef (turns 12) "hi" "yo"
      = (turns 12 ++ [Message.mk "user" "hi", Message.mk "assistant" "yo"]).tail.tail.tail.tail ∧
    (onText (NewAIBot "" "k") (Cache.empty.Set "7" (turns 12)) "7" "hi"
        (answering [chatChoice "yo"]) "0.10" none).cache.Get "7"
      ≠ some (updateHistoryRef (turns 12) "hi" "yo") := by
  refine ⟨by decide, by decide, by decide⟩

/-- C2, amended: for every prior history of at most ten turns, every non-empty
query and every completion outcome, the history the `OnText` handler stores
equals the reference result: the prior history followed by the user turn and
the assistant turn, then the two oldest turns dropped while the length
exceeds ten. -/
theorem onText_eq_updateHistoryRef (b : AIBot) (cache : Cache) (userID text : String)
    (send : Payload → Upstream) (elapsed : String) (sendErr : Option String)
    (hlen : (priorHistory cache userID).length ≤ 10) (ht : text ≠ "") :
    (onText b cache userID text send elapsed sendErr).cache.Get userID =
      some (updateHistoryRef (priorHistory cache userID) text
        (replyText (createCompletion b text (priorHistory cache userID) send).2)) := by
  rw [onText_nonempty b cache userID text send elapsed sendErr ht]
  simp only [Cache.Get, Cache.Set, if_true, Option.some.injEq]
  unfold updateHistoryRef
  rw [truncateLoop_eq_truncate]
  · simp
  · simp only [List.length_append, List.length_cons, List.length_nil]
    omega

theorem onText_eq_updateHistoryRef_witness :
    (priorHistory (Cache.empty.Set "7" (turns 10)) "7").length ≤ 10 ∧ "hi" ≠ "" ∧
    (onText (NewAIBot "" "k") (Cache.empty.Set "7" (turns 10)) "7" "hi"
        (answering [chatChoice "yo"]) "0.10" none).cache.Get "7" =
      some (updateHistoryRef (turns 10) "hi" "yo") :=
  ⟨by decide, by decide,
    onText_eq_updateHistoryRef (NewAIBot "" "k") (Cache.empty.Set "7" (turns 10)) "7" "hi"
      (answering [chatChoice "yo"]) "0.10" none (by decide) (by decide)⟩

/-- C3: in every cache state reachable from the empty cache (by handled text
messages with any completion outcome, by the commands, and by the cache dropping
entries), every stored history has even length at most ten and alternates the
roles user, assistant, ... starting with user; and every non-empty text message
handled in such a state stores the prior history followed by the user turn and
the assistant turn, with zero or exactly two turns removed from the front. -/
theorem reachable_history_invariant (b : AIBot) (s : Cache) (hs : Reachable b s) :
    (∀ (u : String) (h : List Message), s.Get u = some h →
      h.length % 2 = 0 ∧ h.length ≤ 10 ∧ Alternates h) ∧
    (∀ (u text : String) (send : Payload → Upstream) (elapsed : String)
        (sendErr : Option String), text ≠ "" →
      ∃ (r : String) (k : Nat), (k = 0 ∨ k = 2) ∧
        (onText b s u text send elapsed sendErr).cache.Get u =
          some ((priorHistory s u ++
            [Message.mk "user" text, Message.mk "assistant" r]).drop k) ∧
        ((priorHistory s u ++
            [Message.mk "user" text, Message.mk "assistant" r]).drop k).length + k =
          (priorHistory s u).length + 2) := by
  refine ⟨reachable_wellFormed b s hs, ?_⟩
  intro u text send elapsed sendErr ht
  rw [onText_nonempty b s u text send elapsed sendErr ht]
  refine ⟨replyText (createCompletion b text (priorHistory s u) send).2, ?_⟩
  simp only [Cache.Get, Cache.Set, if_true, Option.some.injEq]
  by_cases hlong : (priorHistory s u ++ [Message.mk "user" text,
      Message.mk "assistant" (replyText (createCompletion b text (priorHistory s u) send).2)]).length
        > 10
  · refine ⟨2, Or.inr rfl, ?_, ?_⟩
    · simp only [truncate, hlong, if_true]
    · simp only [List.length_drop, List.length_append, List.length_cons, List.length_nil]
      omega
  · refine ⟨0, Or.inl rfl, ?_, ?_⟩
    · simp only [truncate, hlong, if_false, List.drop_zero]
    · simp only [List.drop_zero, List.length_append, List.length_cons, List.length_nil]

theorem reachable_history_invariant_witness :
    Reachable (NewAIBot "" "k")
      (onText (NewAIBot "" "k") Cache.empty "7" "hi" (answering [chatChoice "yo"])
        "0.10" none).cache ∧
    (onText (NewAIBot "" "k") Cache.empty "7" "hi" (answering [chatChoice "yo"])
        "0.10" none).cache.Get "7" = some [Message.mk "user" "hi", Message.mk "assistant" "yo"] ∧
    ((∀ (u : String) (h : List Message),
        (onText (NewAIBot "" "k") Cache.empty "7" "hi" (answering [chatChoice "yo"])
          "0.10" none).cache.Get u = some h →
        h.length % 2 = 0 ∧ h.length ≤ 10 ∧ Alternates h) ∧
      (∀ (u text : String) (send : Payload → Upstream) (elapsed : String)
          (sendErr : Option String), text ≠ "" →
        ∃ (r : String) (k : Nat), (k = 0 ∨ k = 2) ∧
          (onText (NewAIBot "" "k")
              (onText (NewAIBot "" "k") Cache.empty "7" "hi" (answering [chatChoice "yo"])
                "0.10" none).cache u text send elapsed sendErr).cache.Get u =
            some ((priorHistory
                (onText (NewAIBot "" "k") Cache.empty "7" "hi" (answering [chatChoice "yo"])
                  "0.10" none).cache u ++
              [Message.mk "user" text, Message.mk "assistant" r]).drop k) ∧
          ((priorHistory
                (onText (NewAIBot "" "k") Cache.empty "7" "hi" (answering [chatChoice "yo"])
                  "0.10" none).cache u ++
              [Message.mk "user" text, Message.mk "assistant" r]).drop k).length + k =
            (priorHistory
                (onText (NewAIBot "" "k") Cache.empty "7" "hi" (answering [chatChoice "yo"])
                  "0.10" none).cache u).length + 2)) :=
  ⟨Reachable.text _ _ _ _ _ _ Reachable.init, by decide,
    reachable_history_invariant (NewAIBot "" "k") _
      (Reachable.text _ _ _ _ _ _ Reachable.init)⟩

/-- C4: in chat mode (model `gpt-3.5-turbo`), for every query and every prior
history, the request `createCompletion` posts is the chat request whose messages
are the history followed by the turn of role user with the query, whose model is
the configured model, and whose parameters are temperature 0.7, max_tokens 1000,
top_p 1, frequency_penalty 0, presence_penalty 0, stop `[" Human:", " Ai:"]`. -/
theorem createCompletion_chat_request (b : AIBot) (query : String) (history : List Message)
    (send : Payload → Upstream) (hb : b.model = "gpt-3.5-turbo") :
    (createCompletion b query history send).1 =
      Payload.chat {
        Model := b.model
        Messages := history ++ [Message.mk "user" query]
        Temperature := 7 / 10
        MaxTokens := 1000
        TopP := 1
        FrequencyPenalty := 0
        PresencePenalty := 0
        Stop := [" Human:", " Ai:"] } := by
  rw [createCompletion_posts]
  simp only [buildPayload, hb, if_true]

theorem createCompletion_chat_request_witness :
    (NewAIBot "" "k").model = "gpt-3.5-turbo" ∧
    (createCompletion (NewAIBot "" "k") "hi"
        [Message.mk "user" "a", Message.mk "assistant" "b"] (failing "timeout")).1 =
      Payload.chat {
        Model := "gpt-3.5-turbo"
        Messages := [Message.mk "user" "a", Message.mk "assistant" "b", Message.mk "user" "hi"]
        Temperature := 7 / 10
        MaxTokens := 1000
        TopP := 1
        FrequencyPenalty := 0
        PresencePenalty := 0
        Stop := [" Human:", " Ai:"] } :=
  ⟨rfl, createCompletion_chat_request (NewAIBot "" "k") "hi"
    [Message.mk "user" "a", Message.mk "assistant" "b"] (failing "timeout") rfl⟩

/-- C5: for every successfully parsed response whose choices list is
non-empty, `createCompletion` returns, without error, the candidate texts of the
choices joined in choice order with the separator of two newlines, where the
candidate text of a choice is its `text` if non-empty and its `message.content`
otherwise (one candidate per choice). -/
theorem createCompletion_joins_candidates (b : AIBot) (query : String)
    (history : List Message) (send : Payload → Upstream) (data : CreateCompletionResponse)
    (hsend : send (buildPayload b query history) = Upstream.parsed data)
    (hne : data.Choices ≠ []) :
    (createCompletion b query history send).2 =
      Except.ok (String.intercalate "\n\n" (data.Choices.map candidateText)) := by
  simp only [createCompletion, hsend, normalize_eq, hne, if_false]

theorem createCompletion_joins_candidates_witness :
    answering [textChoice "A", chatChoice "B"] (buildPayload (NewAIBot "" "k") "hi" []) =
      Upstream.parsed {
        ID := ""
        Object := ""
        Created := 0
        Model := ""
        Choices := [textChoice "A", chatChoice "B"]
        Usage := { PromptTokens := 0, CompletionTokens := 0, TotalTokens := 0 } } ∧
    [textChoice "A", chatChoice "B"] ≠ [] ∧
    [textChoice "A", chatChoice "B"].map candidateText = ["A", "B"] ∧
    (createCompletion (NewAIBot "" "k") "hi" []
        (answering [textChoice "A", chatChoice "B"])).2 = Except.ok "A\n\nB" :=
  ⟨rfl, by decide, by decide,
    createCompletion_joins_candidates (NewAIBot "" "k") "hi" []
      (answering [textChoice "A", chatChoice "B"]) _ rfl (by decide)⟩

/-- C6: for every response that was unmarshalled and has an empty choices list
(the zero value an error-shaped body unmarshals to included), `createCompletion`
returns the fallback reply and no error; it returns an error exactly when the
transport failed or the body could not be unmarshalled. -/
theorem createCompletion_fallback_and_errors (b : AIBot) (query : String)
    (history : List Message) (send : Payload → Upstream) :
    (∀ data : CreateCompletionResponse,
      send (buildPayload b query history) = Upstream.parsed data → data.Choices = [] →
      (createCompletion b query history send).2 =
        Except.ok "Something went wrong, please retry later") ∧
    (∀ e : String, (createCompletion b query history send).2 = Except.error e ↔
      (send (buildPayload b query history) = Upstream.transportError e ∨
        send (buildPayload b query history) = Upstream.malformed e)) := by
  constructor
  · intro data hsend hempty
    simp only [createCompletion, hsend, normalize_eq, hempty, if_true]
  · intro e
    cases hsend : send (buildPayload b query history) with
    | transportError e1 => simp [createCompletion, hsend]
    | malformed e1 => simp [createCompletion, hsend]
    | parsed data => simp [createCompletion, hsend]

theorem createCompletion_fallback_and_errors_witness :
    (createCompletion (NewAIBot "" "k") "hi" [] (answering [])).2 =
      Except.ok "Something went wrong, please retry later" ∧
    (createCompletion (NewAIBot "" "k") "hi" [] (garbled "unexpected end of JSON input")).2 =
      Except.error "unexpected end of JSON input" :=
  ⟨(createCompletion_fallback_and_errors (NewAIBot "" "k") "hi" [] (answering [])).1 _ rfl rfl,
   ((createCompletion_fallback_and_errors (NewAIBot "" "k") "hi" []
      (garbled "unexpected end of JSON input")).2 _).2 (Or.inr rfl)⟩

/-- C7, on the code: `/clear` for a user whose history is stored leaves the
history in the cache, and the next message of that user is posted with the old
turns in front of it. -/
theorem onClear_keeps_history :
    (onClear (Cache.empty.Set "7" [Message.mk "user" "a", Message.mk "assistant" "b"])
        "7" none).cache.Get "7" =
      some [Message.mk "user" "a", Message.mk "assistant" "b"] ∧
    (onText (NewAIBot "" "k")
        (onClear (Cache.empty.Set "7" [Message.mk "user" "a", Message.mk "assistant" "b"])
          "7" none).cache
        "7" "hi" (answering [chatChoice "yo"]) "0.10" none).requests =
      [Payload.chat {
        Model := "gpt-3.5-turbo"
        Messages := [Message.mk "user" "a", Message.mk "assistant" "b", Message.mk "user" "hi"]
        Temperature := 7 / 10
        MaxTokens := 1000
        TopP := 1
        FrequencyPenalty := 0
        PresencePenalty := 0
        Stop := [" Human:", " Ai:"] }] := by
  constructor
  · rfl
  · rfl

/-- C8, as stated, fails: when the transport fails, the reply text the handler
records and sends is not the string `OPS! Bot busy, please try again`; it has a
blank between `OPS` and the exclamation mark. -/
theorem onText_busy_reply_differs :
    (createCompletion (NewAIBot "" "k") "hi" [] (failing "timeout")).2 =
      Except.error "timeout" ∧
    replyText (createCompletion (NewAIBot "" "k") "hi" [] (failing "timeout")).2 ≠
      "OPS! Bot busy, please try again" ∧
    (onText (NewAIBot "" "k") Cache.empty "7" "hi" (failing "timeout") "0.10" none).cache.Get "7" ≠
      some [Message.mk "user" "hi", Message.mk "assistant" "OPS! Bot busy, please try again"] ∧
    (onText (NewAIBot "" "k") Cache.empty "7" "hi" (failing "timeout") "0.10" none).sent ≠
      ["OPS! Bot busy, please try again" ++ "\n (0.10s) "] := by
  refine ⟨rfl, by decide, by decide, by decide⟩

/-- C8, amended: whenever `createCompletion` returns an error, the reply text
the `OnText` handler records as the assistant turn and sends to the user before
the elapsed-time suffix is exactly `OPS ! Bot busy, please try again`, and the
error the handler returns is the one of the final send, not the completion
error. -/
theorem onText_busy_reply (b : AIBot) (cache : Cache) (userID text : String)
    (send : Payload → Upstream) (elapsed : String) (sendErr : Option String) (e : String)
    (ht : text ≠ "")
    (herr : (createCompletion b text (priorHistory cache userID) send).2 = Except.error e) :
    replyText (createCompletion b text (priorHistory cache userID) send).2 =
      "OPS ! Bot busy, please try again" ∧
    (onText b cache userID text send elapsed sendErr).cache.Get userID =
      some (truncate (priorHistory cache userID ++
        [Message.mk "user" text, Message.mk "assistant" "OPS ! Bot busy, please try again"])) ∧
    (onText b cache userID text send elapsed sendErr).sent =
      ["OPS ! Bot busy, please try again" ++ ("\n (" ++ elapsed ++ "s) ")] ∧
    (onText b cache userID text send elapsed sendErr).err = sendErr := by
  rw [onText_nonempty b cache userID text send elapsed sendErr ht, herr]
  simp [replyText, Cache.Get, Cache.Set]

theorem onText_busy_reply_witness :
    "hi" ≠ "" ∧
    (createCompletion (NewAIBot "" "k") "hi" (priorHistory Cache.empty "7")
      (failing "timeout")).2 = Except.error "timeout" ∧
    replyText (createCompletion (NewAIBot "" "k") "hi" (priorHistory Cache.empty "7")
      (failing "timeout")).2 = "OPS ! Bot busy, please try again" ∧
    (onText (NewAIBot "" "k") Cache.empty "7" "hi" (failing "timeout") "0.10" none).cache.Get "7" =
      some (truncate (priorHistory Cache.empty "7" ++
        [Message.mk "user" "hi", Message.mk "assistant" "OPS ! Bot busy, please try again"])) ∧
    (onText (NewAIBot "" "k") Cache.empty "7" "hi" (failing "timeout") "0.10" none).sent =
      ["OPS ! Bot busy, please try again" ++ ("\n (" ++ "0.10" ++ "s) ")] ∧
    (onText (NewAIBot "" "k") Cache.empty "7" "hi" (failing "timeout") "0.10" none).err = none :=
  ⟨by decide, rfl,
    onText_busy_reply (NewAIBot "" "k") Cache.empty "7" "hi" (failing "timeout") "0.10" none
      "timeout" (by decide) rfl⟩

/-- C9: the write-back is unconditional: for every non-empty text and prior
history, whatever the completion round produced (joined candidates, the
empty-choices fallback, or an error), the handler leaves the cache with the
entry of the user set to the prior history extended by the user turn and the
assistant turn carrying the reply text of the round (then passed through the
window), and every other entry as it was; the text sent is that reply text
followed by the elapsed-time suffix. -/
theorem onText_writes_back (b : AIBot) (cache : Cache) (userID text : String)
    (send : Payload → Upstream) (elapsed : String) (sendErr : Option String)
    (ht : text ≠ "") :
    (onText b cache userID text send elapsed sendErr).cache =
      cache.Set userID (truncate (priorHistory cache userID ++
        [Message.mk "user" text,
         Message.mk "assistant"
          (roundReply (send (buildPayload b text (priorHistory cache userID))))])) ∧
    (onText b cache userID text send elapsed sendErr).sent =
      [roundReply (send (buildPayload b text (priorHistory cache userID))) ++
        ("\n (" ++ elapsed ++ "s) ")] := by
  rw [onText_nonempty b cache userID text send elapsed sendErr ht, replyText_eq_roundReply]
  exact ⟨rfl, rfl⟩

theorem onText_writes_back_witness :
    "hi" ≠ "" ∧
    ((onText (NewAIBot "" "k") Cache.empty "7" "hi" (answering []) "0.10" none).cache =
      Cache.empty.Set "7" (truncate (priorHistory Cache.empty "7" ++
        [Message.mk "user" "hi",
         Message.mk "assistant"
          (roundReply (answering [] (buildPayload (NewAIBot "" "k") "hi"
            (priorHistory Cache.empty "7"))))])) ∧
    (onText (NewAIBot "" "k") Cache.empty "7" "hi" (answering []) "0.10" none).sent =
      [roundReply (answering [] (buildPayload (NewAIBot "" "k") "hi"
          (priorHistory Cache.empty "7"))) ++ ("\n (" ++ "0.10" ++ "s) ")]) ∧
    (onText (NewAIBot "" "k") Cache.empty "7" "hi" (answering []) "0.10" none).cache.Get "7" =
      some [Message.mk "user" "hi",
        Message.mk "assistant" "Something went wrong, please retry later"] :=
  ⟨by decide,
    onText_writes_back (NewAIBot "" "k") Cache.empty "7" "hi" (answering []) "0.10" none
      (by decide),
    by decide⟩

/-- C10: for every cache state and user id, handling a message with empty text
sends the prompting reply `Can I help you, give me some question !`, posts no
completion request (the outcome does not depend on the upstream), and leaves the
cache as it was, so a read of any user id gives the same value before and
after. -/
theorem onText_empty_text (b : AIBot) (cache : Cache) (userID : String)
    (send : Payload → Upstream) (elapsed : String) (sendErr : Option String) :
    (onText b cache userID "" send elapsed sendErr).sent =
      ["Can I help you, give me some question !"] ∧
    (onText b cache userID "" send elapsed sendErr).requests = [] ∧
    (∀ send2 : Payload → Upstream,
      (onText b cache userID "" send2 elapsed sendErr).sent =
        (onText b cache userID "" send elapsed sendErr).sent ∧
      (onText b cache userID "" send2 elapsed sendErr).cache =
        (onText b cache userID "" send elapsed sendErr).cache) ∧
    (onText b cache userID "" send elapsed sendErr).cache = cache ∧
    (∀ u : String,
      (onText b cache userID "" send elapsed sendErr).cache.Get u = cache.Get u) := by
  simp only [onText_empty, and_self, implies_true]

end Lucia
